import Mathlib

/-!
Verification of the rule-based risk classifier in `src/ai_engine.py` and of its
dashboard call site in `src/app.py`, as a shallow embedding in Lean.

Modelling choices:
* Python numbers are modelled as `ℚ`.  The classifier only compares the heart
  rate against integer thresholds and stores probability literals, so this is
  exact for every behaviour examined here.
* The fresh identifiers that the Python code draws from `uuid.uuid4()` and the
  timestamp from `datetime.now(timezone.utc)` are passed as explicit
  parameters `risk_id`, `req_id`, `timestamp`.
* The FHIR JSON dictionaries become Lean structures carrying exactly the
  fields the source writes; the `"resourceType"` tag of a resource becomes
  the constructor of the `Resource` inductive.
* Python's dynamic typing at the single comparison site `heart_rate > 150`
  is modelled by `PyVal` / `PyErr`: comparing a non-numeric value against a
  number raises `TypeError` in Python 3.
-/

namespace FHIR

/-- Python runtime errors that the modelled code can raise.  The repository
defines no exception classes of its own (in particular no `DataError`). -/
inductive PyErr where
  | typeError
  | valueError
deriving DecidableEq, Repr

/-- One element of a FHIR `coding` list. -/
structure Coding where
  system : String
  code : String
  display : String
deriving DecidableEq, Repr

/-- A FHIR reference object `{"reference": ...}`. -/
structure Reference where
  reference : String
deriving DecidableEq, Repr

/-- One element of the `prediction` list of a RiskAssessment. -/
structure Prediction where
  outcomeText : String
  probabilityDecimal : ℚ
  qualitativeRiskCoding : List Coding
deriving DecidableEq, Repr

/-- The `risk_assessment` dictionary built at `src/ai_engine.py:43-61`. -/
structure RiskAssessment where
  id : String
  status : String
  subject : Reference
  basis : List Reference
  occurrenceDateTime : String
  prediction : List Prediction
deriving DecidableEq, Repr

/-- The `service_request` dictionary built at `src/ai_engine.py:79-94`. -/
structure ServiceRequest where
  id : String
  status : String
  intent : String
  priority : String
  codeCoding : List Coding
  subject : Reference
  reasonReference : List Reference
deriving DecidableEq, Repr

/-- A bundle-entry resource, tagged by its `resourceType`. -/
inductive Resource where
  | riskAssessment (ra : RiskAssessment)
  | serviceRequest (sr : ServiceRequest)
deriving DecidableEq, Repr

/-- One element of the bundle `entry` list (`src/ai_engine.py:64-70, 97-101`). -/
structure BundleEntry where
  fullUrl : String
  resource : Resource
  requestMethod : String
  requestUrl : String
deriving DecidableEq, Repr

/-- The `ai_bundle` dictionary built at `src/ai_engine.py:106-110`. -/
structure Bundle where
  bundleType : String
  entry : List BundleEntry
deriving DecidableEq, Repr

/-- Python `str.capitalize()`: first character upper-cased, the rest
lower-cased (used at `src/ai_engine.py:57`). -/
def pyCapitalize (s : String) : String :=
  match s.data with
  | [] => ""
  | c :: rest => String.mk (c.toUpper :: rest.map Char.toLower)

/-- The rule ladder at `src/ai_engine.py:18-38`.  It assigns
`(risk_level, probability, description, action_needed)`.  The initial values
set at lines 18-21 (`"low"`, `0.1`, `"Vital signs within normal limits"`,
`False`) are overwritten on every path, because the `if/elif` ladder ends in
an unconditional `else` that reassigns all four variables; only the final
values are observable. -/
def classify (heart_rate : ℚ) : String × ℚ × String × Bool :=
  if heart_rate > 150 then
    ("high", 0.85, "CRITICAL: Tachycardia detected. Risk of Cardiac Arrest.", true)
  else if heart_rate < 50 then
    ("moderate", 0.45, "WARNING: Bradycardia detected. Monitor required.", false)
  else
    ("low", 0.12, "Normal Sinus Rhythm.", false)

/-- Shallow embedding of `analyze_and_create_report` (`src/ai_engine.py:8-113`)
for a numeric heart rate.  `risk_id`, `req_id` and `timestamp` stand for the
values of `uuid.uuid4()` and `datetime.now(...).isoformat()` drawn inside the
function (`req_id` is drawn, and used, only on the escalation path). -/
def analyze_and_create_report (heart_rate : ℚ) (patient_id obs_id : String)
    (risk_id req_id timestamp : String) : Bundle × String :=
  let c := classify heart_rate
  let risk_level := c.1
  let probability := c.2.1
  let description := c.2.2.1
  let action_needed := c.2.2.2
  let risk_assessment : RiskAssessment :=
    { id := risk_id
      status := "final"
      subject := ⟨"Patient/" ++ patient_id⟩
      basis := [⟨"Observation/" ++ obs_id⟩]
      occurrenceDateTime := timestamp
      prediction := [{ outcomeText := description
                       probabilityDecimal := probability
                       qualitativeRiskCoding :=
                         [{ system := "http://terminology.hl7.org/CodeSystem/risk-probability"
                            code := risk_level
                            display := pyCapitalize risk_level ++ " likelihood" }] }] }
  let baseEntries : List BundleEntry :=
    [{ fullUrl := "urn:uuid:" ++ risk_id
       resource := .riskAssessment risk_assessment
       requestMethod := "POST"
       requestUrl := "RiskAssessment" }]
  let entries : List BundleEntry :=
    if action_needed then
      let service_request : ServiceRequest :=
        { id := req_id
          status := "active"
          intent := "order"
          priority := "stat"
          codeCoding := [{ system := "http://snomed.info/sct"
                           code := "40617009"
                           display := "Emergency medical intervention" }]
          subject := ⟨"Patient/" ++ patient_id⟩
          reasonReference := [⟨"urn:uuid:" ++ risk_id⟩] }
      baseEntries ++
        [{ fullUrl := "urn:uuid:" ++ req_id
           resource := .serviceRequest service_request
           requestMethod := "POST"
           requestUrl := "ServiceRequest" }]
    else baseEntries
  ({ bundleType := "transaction", entry := entries }, risk_level)

/-- A Python value as it can reach the `heart_rate` parameter: a number, a
string, a dict of vitals (as the dashboard passes), or a bundle dict (as the
function returns). -/
inductive PyVal where
  | num (q : ℚ)
  | str (s : String)
  | vitalsDict (fields : List (String × ℚ))
  | bundleVal (b : Bundle)
deriving DecidableEq, Repr

/-- `analyze_and_create_report` under Python's dynamic typing.  The first
statement that touches `heart_rate` is the comparison `heart_rate > 150` at
line 23; in Python 3 ordering a non-numeric value against `int` raises
`TypeError`, before any resource dictionary is built, so a non-numeric
heart rate yields `TypeError` and no result. -/
def analyze_and_create_report_dyn (heart_rate : PyVal) (patient_id obs_id : String)
    (risk_id req_id timestamp : String) : Except PyErr (Bundle × String) :=
  match heart_rate with
  | .num q => .ok (analyze_and_create_report q patient_id obs_id risk_id req_id timestamp)
  | _ => .error .typeError

/-- `str(v)`, as used by the f-strings of the source.  (The rendering of
non-primitive values is irrelevant to every claim; only that it never
fails matters.) -/
def pyFormat : PyVal → String
  | .num q => toString q
  | .str s => s
  | .vitalsDict _ => "<dict>"
  | .bundleVal _ => "<dict>"

/-- A Python call of `analyze_and_create_report` with a list of positional
arguments.  The `def` at `src/ai_engine.py:8` has exactly three required
parameters, so any other argument count raises `TypeError` before the body
runs; a successful call returns the 2-tuple `(ai_bundle, risk_level)` of
line 113, here as the value list `[bundle, risk_level]`. -/
def analyze_call (args : List PyVal) (risk_id req_id timestamp : String) :
    Except PyErr (List PyVal) :=
  match args with
  | [hr, pid, oid] =>
    (analyze_and_create_report_dyn hr (pyFormat pid) (pyFormat oid)
        risk_id req_id timestamp).map
      (fun r => [PyVal.bundleVal r.1, PyVal.str r.2])
  | _ => .error .typeError

/-- Python tuple unpacking `a, b, c, d = e`: raises `ValueError` unless the
right-hand side has exactly four components. -/
def unpack4 (vals : List PyVal) : Except PyErr (PyVal × PyVal × PyVal × PyVal) :=
  match vals with
  | [a, b, c, d] => .ok (a, b, c, d)
  | _ => .error .valueError

/-- The dashboard AI block at `src/app.py:288`:
`bundle, status, desc, risk_id = analyze_and_create_report(v, st.session_state["pid"])`
passes two positional arguments and unpacks four names. -/
def dashboard_ai_block (v pid : PyVal) (risk_id req_id timestamp : String) :
    Except PyErr (PyVal × PyVal × PyVal × PyVal) :=
  (analyze_call [v, pid] risk_id req_id timestamp).bind unpack4

/-! ### Accessors on the emitted bundle -/

/-- Whether a bundle-entry resource is a RiskAssessment. -/
def Resource.isRiskAssessment : Resource → Bool
  | .riskAssessment _ => true
  | .serviceRequest _ => false

/-- Whether a bundle-entry resource is a ServiceRequest. -/
def Resource.isServiceRequest : Resource → Bool
  | .riskAssessment _ => false
  | .serviceRequest _ => true

/-- The bundle entries holding a RiskAssessment. -/
def Bundle.riskAssessmentEntries (b : Bundle) : List BundleEntry :=
  b.entry.filter (fun e => e.resource.isRiskAssessment)

/-- The bundle entries holding a ServiceRequest. -/
def Bundle.serviceRequestEntries (b : Bundle) : List BundleEntry :=
  b.entry.filter (fun e => e.resource.isServiceRequest)

/-- Whether the bundle contains a ServiceRequest (escalation order). -/
def Bundle.hasServiceRequest (b : Bundle) : Bool :=
  !b.serviceRequestEntries.isEmpty

/-- The first RiskAssessment resource of the bundle, if any. -/
def Bundle.firstRiskAssessment (b : Bundle) : Option RiskAssessment :=
  match b.riskAssessmentEntries with
  | [] => none
  | e :: _ =>
    match e.resource with
    | .riskAssessment ra => some ra
    | .serviceRequest _ => none

/-- The first ServiceRequest resource of the bundle, if any. -/
def Bundle.firstServiceRequest (b : Bundle) : Option ServiceRequest :=
  match b.serviceRequestEntries with
  | [] => none
  | e :: _ =>
    match e.resource with
    | .riskAssessment _ => none
    | .serviceRequest sr => some sr

/-- The `probabilityDecimal` of the report's first prediction. -/
def Bundle.reportProbability (b : Bundle) : Option ℚ :=
  (b.firstRiskAssessment.bind (fun ra => ra.prediction.head?)).map
    (fun p => p.probabilityDecimal)

/-- The `outcome.text` of the report's first prediction. -/
def Bundle.reportDescription (b : Bundle) : Option String :=
  (b.firstRiskAssessment.bind (fun ra => ra.prediction.head?)).map
    (fun p => p.outcomeText)

/-- The `qualitativeRisk.coding[0].code` of the report's first prediction. -/
def Bundle.reportRiskCode (b : Bundle) : Option String :=
  ((b.firstRiskAssessment.bind (fun ra => ra.prediction.head?)).bind
    (fun p => p.qualitativeRiskCoding.head?)).map (fun c => c.code)

/-- The id of the report. -/
def Bundle.riskAssessmentId (b : Bundle) : Option String :=
  b.firstRiskAssessment.map (fun ra => ra.id)

/-- Resolve a `fullUrl` inside the bundle, as a FHIR transaction processor
does for `urn:uuid:` references. -/
def Bundle.resolve (b : Bundle) (url : String) : Option Resource :=
  (b.entry.find? (fun e => e.fullUrl == url)).map (fun e => e.resource)

end FHIR

namespace FHIR

/-! ### Claims -/

/-- C1: for every numeric heart-rate input, the bundle returned by
`analyze_and_create_report` contains a ServiceRequest (escalation order) entry
if and only if the heart rate is strictly greater than 150; in particular no
ServiceRequest is present for heart rate at most 150, bradycardia included. -/
theorem escalation_iff_heart_rate_gt_150 (q : ℚ) (pid oid rid reqid ts : String) :
    (analyze_and_create_report q pid oid rid reqid ts).1.hasServiceRequest = true ↔ q > 150 := by
  unfold analyze_and_create_report classify
  by_cases h : q > 150
  · simp [h, Bundle.hasServiceRequest, Bundle.serviceRequestEntries, Resource.isServiceRequest,
      Resource.isRiskAssessment]
  · by_cases h2 : q < 50 <;>
      simp [h, h2, Bundle.hasServiceRequest, Bundle.serviceRequestEntries,
        Resource.isServiceRequest, Resource.isRiskAssessment]

/-- C2 counterexample: at heart rate 180 the code returns risk level `"high"`
(not `"critical"` and not `"emergency"`) with probability 0.85 (not 0.95). -/
theorem hr180_not_critical_prob85 :
    (analyze_and_create_report 180 "p0" "o0" "r0" "s0" "t0").2 = "high" ∧
    "high" ≠ "critical" ∧ "high" ≠ "emergency" ∧
    (analyze_and_create_report 180 "p0" "o0" "r0" "s0" "t0").1.reportProbability = some 0.85 ∧
    (0.85 : ℚ) ≠ 0.95 :=
  ⟨rfl, by decide, by decide, rfl, by norm_num⟩

/-- C2 amended: for heart rate above 160 the result is risk level `"high"`,
probability 0.85, the tachycardia description, and an escalation order; for
heart rate below 40 it is `"moderate"`, probability 0.45, the bradycardia
description, and no escalation order. -/
theorem severe_rate_branches (q : ℚ) (pid oid rid reqid ts : String) :
    (160 < q →
      (analyze_and_create_report q pid oid rid reqid ts).2 = "high" ∧
      (analyze_and_create_report q pid oid rid reqid ts).1.reportProbability = some 0.85 ∧
      (analyze_and_create_report q pid oid rid reqid ts).1.reportDescription =
        some "CRITICAL: Tachycardia detected. Risk of Cardiac Arrest." ∧
      (analyze_and_create_report q pid oid rid reqid ts).1.hasServiceRequest = true) ∧
    (q < 40 →
      (analyze_and_create_report q pid oid rid reqid ts).2 = "moderate" ∧
      (analyze_and_create_report q pid oid rid reqid ts).1.reportProbability = some 0.45 ∧
      (analyze_and_create_report q pid oid rid reqid ts).1.reportDescription =
        some "WARNING: Bradycardia detected. Monitor required." ∧
      (analyze_and_create_report q pid oid rid reqid ts).1.hasServiceRequest = false) := by
  constructor
  · intro h
    have h1 : q > 150 := by linarith
    simp [analyze_and_create_report, classify, h1, Bundle.reportProbability,
      Bundle.reportDescription, Bundle.firstRiskAssessment, Bundle.riskAssessmentEntries,
      Bundle.hasServiceRequest, Bundle.serviceRequestEntries,
      Resource.isRiskAssessment, Resource.isServiceRequest]
  · intro h
    have h1 : ¬ q > 150 := by linarith
    have h2 : q < 50 := by linarith
    simp [analyze_and_create_report, classify, h1, h2, Bundle.reportProbability,
      Bundle.reportDescription, Bundle.firstRiskAssessment, Bundle.riskAssessmentEntries,
      Bundle.hasServiceRequest, Bundle.serviceRequestEntries,
      Resource.isRiskAssessment, Resource.isServiceRequest]

/-- C2 witness: the amended tachycardia branch evaluated at heart rate 180. -/
theorem severe_rate_branches_witness :
    (160 < (180 : ℚ)) ∧
    ((analyze_and_create_report 180 "p6" "o6" "r6" "s6" "t6").2 = "high" ∧
      (analyze_and_create_report 180 "p6" "o6" "r6" "s6" "t6").1.reportProbability = some 0.85 ∧
      (analyze_and_create_report 180 "p6" "o6" "r6" "s6" "t6").1.reportDescription =
        some "CRITICAL: Tachycardia detected. Risk of Cardiac Arrest." ∧
      (analyze_and_create_report 180 "p6" "o6" "r6" "s6" "t6").1.hasServiceRequest = true) :=
  ⟨by norm_num, (severe_rate_branches 180 "p6" "o6" "r6" "s6" "t6").1 (by norm_num)⟩

/-- C3 counterexample: at the default heart rate 75 the emitted probability is
0.12, not the 0.1 the claim states. -/
theorem default_hr_probability_not_tenth :
    (analyze_and_create_report 75 "p1" "o1" "r1" "s1" "t1").1.reportProbability = some 0.12 ∧
    (0.12 : ℚ) ≠ 0.1 :=
  ⟨rfl, by norm_num⟩

/-- C3 amended: at the default heart rate 75 the result is risk level `"low"`,
probability 0.12, the fixed description `"Normal Sinus Rhythm."` (which does
not echo the inputs), risk code `"low"`, and no escalation order. -/
theorem default_hr_classification (pid oid rid reqid ts : String) :
    (analyze_and_create_report 75 pid oid rid reqid ts).2 = "low" ∧
    (analyze_and_create_report 75 pid oid rid reqid ts).1.reportProbability = some 0.12 ∧
    (analyze_and_create_report 75 pid oid rid reqid ts).1.reportDescription =
      some "Normal Sinus Rhythm." ∧
    (analyze_and_create_report 75 pid oid rid reqid ts).1.reportRiskCode = some "low" ∧
    (analyze_and_create_report 75 pid oid rid reqid ts).1.hasServiceRequest = false := by
  have h1 : ¬ (75 : ℚ) > 150 := by norm_num
  have h2 : ¬ (75 : ℚ) < 50 := by norm_num
  simp [analyze_and_create_report, classify, h1, h2, Bundle.reportProbability,
    Bundle.reportDescription, Bundle.reportRiskCode, Bundle.firstRiskAssessment,
    Bundle.riskAssessmentEntries, Bundle.hasServiceRequest, Bundle.serviceRequestEntries,
    Resource.isRiskAssessment, Resource.isServiceRequest]

/-- C4 counterexample: the escalation order emitted at heart rate 180 carries
priority `"stat"`, not the literal `"immediate"` the claim states. -/
theorem escalation_priority_stat_not_immediate :
    ((analyze_and_create_report 180 "p2" "o2" "r2" "s2" "t2").1.firstServiceRequest.map
      (fun sr => sr.priority)) = some "stat" ∧
    "stat" ≠ "immediate" :=
  ⟨rfl, by decide⟩

/-- C4 amended: whenever an escalation order is emitted (and the two freshly
drawn identifiers are distinct, as distinct UUIDs are), it carries the fixed
SNOMED intervention code 40617009 and priority `"stat"`, its identifier is
`req_id` and differs from the identifier `risk_id` of the report, and its
`reasonReference` resolves, within the same bundle, to the RiskAssessment
whose id is `risk_id`. -/
theorem escalation_payload_and_reference (q : ℚ) (pid oid rid reqid ts : String)
    (hne : rid ≠ reqid) (sr : ServiceRequest)
    (hsr : (analyze_and_create_report q pid oid rid reqid ts).1.firstServiceRequest = some sr) :
    sr.codeCoding =
      [⟨"http://snomed.info/sct", "40617009", "Emergency medical intervention"⟩] ∧
    sr.priority = "stat" ∧
    sr.id = reqid ∧
    (analyze_and_create_report q pid oid rid reqid ts).1.riskAssessmentId = some rid ∧
    sr.id ≠ rid ∧
    sr.reasonReference = [⟨"urn:uuid:" ++ rid⟩] ∧
    ∃ ra : RiskAssessment,
      (analyze_and_create_report q pid oid rid reqid ts).1.resolve ("urn:uuid:" ++ rid) =
        some (.riskAssessment ra) ∧ ra.id = rid := by
  by_cases h : q > 150
  · have hsr' := hsr
    simp [analyze_and_create_report, classify, h, Bundle.firstServiceRequest,
      Bundle.serviceRequestEntries, Resource.isServiceRequest, Resource.isRiskAssessment] at hsr'
    subst hsr'
    refine ⟨rfl, rfl, rfl, ?_, fun hc => hne hc.symm, rfl, ?_⟩
    · simp [analyze_and_create_report, classify, h, Bundle.riskAssessmentId,
        Bundle.firstRiskAssessment, Bundle.riskAssessmentEntries,
        Resource.isRiskAssessment, Resource.isServiceRequest]
    · simp [analyze_and_create_report, classify, h, Bundle.resolve]
  · exfalso
    simp [analyze_and_create_report, classify, h, Bundle.firstServiceRequest,
      Bundle.serviceRequestEntries, Resource.isServiceRequest, Resource.isRiskAssessment] at hsr
    by_cases h2 : q < 50 <;> simp [h2] at hsr

end FHIR

namespace FHIR

/-- C4 witness: the amended escalation property evaluated at heart rate 180
with identifiers `"r3"` and `"s3"`. -/
theorem escalation_payload_and_reference_witness :
    ("r3" : String) ≠ "s3" ∧
    (analyze_and_create_report 180 "p3" "o3" "r3" "s3" "t3").1.firstServiceRequest =
      some { id := "s3", status := "active", intent := "order", priority := "stat",
             codeCoding :=
               [⟨"http://snomed.info/sct", "40617009", "Emergency medical intervention"⟩],
             subject := ⟨"Patient/p3"⟩, reasonReference := [⟨"urn:uuid:r3"⟩] } ∧
    ({ id := "s3", status := "active", intent := "order", priority := "stat",
       codeCoding :=
         [⟨"http://snomed.info/sct", "40617009", "Emergency medical intervention"⟩],
       subject := ⟨"Patient/p3"⟩,
       reasonReference := [⟨"urn:uuid:r3"⟩] } : ServiceRequest).codeCoding =
      [⟨"http://snomed.info/sct", "40617009", "Emergency medical intervention"⟩] ∧
    ({ id := "s3", status := "active", intent := "order", priority := "stat",
       codeCoding :=
         [⟨"http://snomed.info/sct", "40617009", "Emergency medical intervention"⟩],
       subject := ⟨"Patient/p3"⟩,
       reasonReference := [⟨"urn:uuid:r3"⟩] } : ServiceRequest).priority = "stat" ∧
    ({ id := "s3", status := "active", intent := "order", priority := "stat",
       codeCoding :=
         [⟨"http://snomed.info/sct", "40617009", "Emergency medical intervention"⟩],
       subject := ⟨"Patient/p3"⟩,
       reasonReference := [⟨"urn:uuid:r3"⟩] } : ServiceRequest).id = "s3" ∧
    (analyze_and_create_report 180 "p3" "o3" "r3" "s3" "t3").1.riskAssessmentId = some "r3" ∧
    ({ id := "s3", status := "active", intent := "order", priority := "stat",
       codeCoding :=
         [⟨"http://snomed.info/sct", "40617009", "Emergency medical intervention"⟩],
       subject := ⟨"Patient/p3"⟩,
       reasonReference := [⟨"urn:uuid:r3"⟩] } : ServiceRequest).id ≠ "r3" ∧
    ({ id := "s3", status := "active", intent := "order", priority := "stat",
       codeCoding :=
         [⟨"http://snomed.info/sct", "40617009", "Emergency medical intervention"⟩],
       subject := ⟨"Patient/p3"⟩,
       reasonReference := [⟨"urn:uuid:r3"⟩] } : ServiceRequest).reasonReference =
      [⟨"urn:uuid:" ++ "r3"⟩] ∧
    ∃ ra : RiskAssessment,
      (analyze_and_create_report 180 "p3" "o3" "r3" "s3" "t3").1.resolve
        ("urn:uuid:" ++ "r3") = some (.riskAssessment ra) ∧ ra.id = "r3" := by
  have h := escalation_payload_and_reference 180 "p3" "o3" "r3" "s3" "t3" (by decide)
    { id := "s3", status := "active", intent := "order", priority := "stat",
      codeCoding :=
        [⟨"http://snomed.info/sct", "40617009", "Emergency medical intervention"⟩],
      subject := ⟨"Patient/p3"⟩, reasonReference := [⟨"urn:uuid:r3"⟩] } rfl
  exact ⟨by decide, rfl, h.1, h.2.1, h.2.2.1, h.2.2.2.1, h.2.2.2.2.1,
    h.2.2.2.2.2.1, h.2.2.2.2.2.2⟩

/-- C5 counterexample: at the non-numeric heart-rate value `"N/A"` the call
raises `TypeError` (the unguarded comparison of line 23), not a `DataError`
naming the field; the repository defines no `DataError` at all. -/
theorem nonnumeric_hr_typeError_example :
    analyze_and_create_report_dyn (.str "N/A") "p4" "o4" "r4" "s4" "t4" =
      .error .typeError :=
  rfl

/-- C5 amended: for every heart-rate value that is not a number, the call
raises `TypeError` and returns no report. -/
theorem nonnumeric_hr_typeError (hr : PyVal) (pid oid rid reqid ts : String)
    (h : ∀ q : ℚ, hr ≠ PyVal.num q) :
    analyze_and_create_report_dyn hr pid oid rid reqid ts = .error .typeError := by
  cases hr with
  | num q => exact absurd rfl (h q)
  | str s => rfl
  | vitalsDict f => rfl
  | bundleVal b => rfl

/-- C5 witness: the amended statement evaluated at the string value `"abc"`. -/
theorem nonnumeric_hr_typeError_witness :
    (∀ q : ℚ, PyVal.str "abc" ≠ PyVal.num q) ∧
    analyze_and_create_report_dyn (.str "abc") "p7" "o7" "r7" "s7" "t7" =
      .error .typeError :=
  ⟨fun _ hq => PyVal.noConfusion hq,
   nonnumeric_hr_typeError (.str "abc") "p7" "o7" "r7" "s7" "t7"
     (fun _ hq => PyVal.noConfusion hq)⟩

/-- C6 counterexample: at heart rate 90 (the preventive scenario of the spec,
vitals hrv 25 and stress 80) the code returns risk level `"low"` with
probability 0.12, not `"preventive"` with probability 0.6; the function does
not even accept hrv, sleep or stress. -/
theorem preventive_scenario_classifies_low :
    (analyze_and_create_report 90 "p5" "o5" "r5" "s5" "t5").2 = "low" ∧
    "low" ≠ "preventive" ∧
    (analyze_and_create_report 90 "p5" "o5" "r5" "s5" "t5").1.reportProbability = some 0.12 ∧
    (0.12 : ℚ) ≠ 0.6 :=
  ⟨rfl, by decide, rfl, by norm_num⟩

/-- C6 amended: the classifier reads only the heart rate; for any snapshot
whose heart rate lies in the non-alerting band from 50 to 150 — the preventive
conditions of the spec (low hrv, short sleep, high stress) included — the
result is `"low"` with probability 0.12 and the fixed normal description. -/
theorem normal_band_classifies_low (q : ℚ) (pid oid rid reqid ts : String)
    (h1 : 50 ≤ q) (h2 : q ≤ 150) :
    (analyze_and_create_report q pid oid rid reqid ts).2 = "low" ∧
    (analyze_and_create_report q pid oid rid reqid ts).1.reportProbability = some 0.12 ∧
    (analyze_and_create_report q pid oid rid reqid ts).1.reportDescription =
      some "Normal Sinus Rhythm." := by
  have hgt : ¬ q > 150 := not_lt.mpr h2
  have hlt : ¬ q < 50 := not_lt.mpr h1
  simp [analyze_and_create_report, classify, hgt, hlt, Bundle.reportProbability,
    Bundle.reportDescription, Bundle.firstRiskAssessment, Bundle.riskAssessmentEntries,
    Resource.isRiskAssessment, Resource.isServiceRequest]

/-- C6 witness: the amended statement evaluated at heart rate 90. -/
theorem normal_band_classifies_low_witness :
    (50 : ℚ) ≤ 90 ∧ (90 : ℚ) ≤ 150 ∧
    ((analyze_and_create_report 90 "p8" "o8" "r8" "s8" "t8").2 = "low" ∧
      (analyze_and_create_report 90 "p8" "o8" "r8" "s8" "t8").1.reportProbability = some 0.12 ∧
      (analyze_and_create_report 90 "p8" "o8" "r8" "s8" "t8").1.reportDescription =
        some "Normal Sinus Rhythm.") :=
  ⟨by norm_num, by norm_num,
   normal_band_classifies_low 90 "p8" "o8" "r8" "s8" "t8" (by norm_num) (by norm_num)⟩

end FHIR

namespace FHIR

/-- C7: for every numeric heart-rate input the dynamic call succeeds (never
raises) with the full result, and the emitted bundle contains exactly one
RiskAssessment entry, placed first. -/
theorem total_and_unique_risk_assessment (q : ℚ) (pid oid rid reqid ts : String) :
    analyze_and_create_report_dyn (.num q) pid oid rid reqid ts =
      .ok (analyze_and_create_report q pid oid rid reqid ts) ∧
    (analyze_and_create_report q pid oid rid reqid ts).1.riskAssessmentEntries.length = 1 ∧
    ((analyze_and_create_report q pid oid rid reqid ts).1.entry.head?.map
      (fun e => e.resource.isRiskAssessment)) = some true := by
  refine ⟨rfl, ?_, ?_⟩ <;>
    · by_cases h : q > 150
      · simp [analyze_and_create_report, classify, h, Bundle.riskAssessmentEntries,
          Resource.isRiskAssessment, Resource.isServiceRequest]
      · by_cases h2 : q < 50 <;>
          simp [analyze_and_create_report, classify, h, h2, Bundle.riskAssessmentEntries,
            Resource.isRiskAssessment, Resource.isServiceRequest]

/-- C8: classification is deterministic in the heart rate.  Two invocations
with the same heart rate (and patient and observation) but different fresh
identifiers and timestamps return the same risk level, probability,
description, risk code and escalation decision. -/
theorem classification_deterministic (q : ℚ) (pid oid r1 s1 t1 r2 s2 t2 : String) :
    (analyze_and_create_report q pid oid r1 s1 t1).2 =
      (analyze_and_create_report q pid oid r2 s2 t2).2 ∧
    (analyze_and_create_report q pid oid r1 s1 t1).1.reportProbability =
      (analyze_and_create_report q pid oid r2 s2 t2).1.reportProbability ∧
    (analyze_and_create_report q pid oid r1 s1 t1).1.reportDescription =
      (analyze_and_create_report q pid oid r2 s2 t2).1.reportDescription ∧
    (analyze_and_create_report q pid oid r1 s1 t1).1.reportRiskCode =
      (analyze_and_create_report q pid oid r2 s2 t2).1.reportRiskCode ∧
    (analyze_and_create_report q pid oid r1 s1 t1).1.hasServiceRequest =
      (analyze_and_create_report q pid oid r2 s2 t2).1.hasServiceRequest := by
  by_cases h : q > 150
  · simp [analyze_and_create_report, classify, h, Bundle.reportProbability,
      Bundle.reportDescription, Bundle.reportRiskCode, Bundle.firstRiskAssessment,
      Bundle.riskAssessmentEntries, Bundle.hasServiceRequest, Bundle.serviceRequestEntries,
      Resource.isRiskAssessment, Resource.isServiceRequest]
  · by_cases h2 : q < 50 <;>
      simp [analyze_and_create_report, classify, h, h2, Bundle.reportProbability,
        Bundle.reportDescription, Bundle.reportRiskCode, Bundle.firstRiskAssessment,
        Bundle.riskAssessmentEntries, Bundle.hasServiceRequest, Bundle.serviceRequestEntries,
        Resource.isRiskAssessment, Resource.isServiceRequest]

/-- C9: the returned risk level is always one of `"low"`, `"moderate"`,
`"high"`; it is also the `qualitativeRisk` code embedded in the report; the
values `"critical"`, `"normal"`, `"preventive"`, `"emergency"` never occur. -/
theorem risk_level_closed_range (q : ℚ) (pid oid rid reqid ts : String) :
    ((analyze_and_create_report q pid oid rid reqid ts).2 = "low" ∨
      (analyze_and_create_report q pid oid rid reqid ts).2 = "moderate" ∨
      (analyze_and_create_report q pid oid rid reqid ts).2 = "high") ∧
    (analyze_and_create_report q pid oid rid reqid ts).1.reportRiskCode =
      some (analyze_and_create_report q pid oid rid reqid ts).2 ∧
    (analyze_and_create_report q pid oid rid reqid ts).2 ≠ "critical" ∧
    (analyze_and_create_report q pid oid rid reqid ts).2 ≠ "normal" ∧
    (analyze_and_create_report q pid oid rid reqid ts).2 ≠ "preventive" ∧
    (analyze_and_create_report q pid oid rid reqid ts).2 ≠ "emergency" := by
  by_cases h : q > 150
  · simp [analyze_and_create_report, classify, h, Bundle.reportRiskCode,
      Bundle.firstRiskAssessment, Bundle.riskAssessmentEntries,
      Resource.isRiskAssessment, Resource.isServiceRequest]
  · by_cases h2 : q < 50 <;>
      simp [analyze_and_create_report, classify, h, h2, Bundle.reportRiskCode,
        Bundle.firstRiskAssessment, Bundle.riskAssessmentEntries,
        Resource.isRiskAssessment, Resource.isServiceRequest]

/-- C10: a correct three-argument call of `analyze_and_create_report` returns
exactly the pair (bundle, risk level); the dashboard block of `src/app.py`,
which passes two arguments and unpacks four names, raises `TypeError` for
every input. -/
theorem dashboard_call_cannot_succeed :
    (∀ (q : ℚ) (pid oid : PyVal) (rid reqid ts : String),
      analyze_call [PyVal.num q, pid, oid] rid reqid ts =
        .ok [PyVal.bundleVal
               (analyze_and_create_report q (pyFormat pid) (pyFormat oid) rid reqid ts).1,
             PyVal.str
               (analyze_and_create_report q (pyFormat pid) (pyFormat oid) rid reqid ts).2]) ∧
    (∀ (v pid : PyVal) (rid reqid ts : String),
      dashboard_ai_block v pid rid reqid ts = .error .typeError) :=
  ⟨fun _ _ _ _ _ _ => rfl, fun _ _ _ _ _ => rfl⟩

end FHIR
